import Mathlib

/-!
Verification of sesg.topic_extraction (topic_extraction.py).

The module under study is a thin adapter over third-party libraries
(sklearn CountVectorizer / LatentDirichletAllocation, BERTopic, UMAP).
We embed the adapter faithfully: the configuration records mirror every
keyword argument the Python code passes to the library constructors, and
the library computations themselves (fitting, vocabulary extraction,
topic discovery) are abstracted as an environment of functions from
(configuration, documents) to results, since they live outside this
repository.  Python floats that only flow through to the libraries are
modelled as rationals; Python ints as Int.

numpy argsort is modelled as a stable sort of the index list by
ascending value (the properties proved about it — being a permutation of
the index range, and yielding weights in descending order after the
reversal — hold for any correct argsort and do not depend on the tie
order numpy happens to use).
-/

/-- The empty string, used as the (never reached, see the permutation
theorems) default of total list indexing. -/
def emptyString : String := ""

/-- The string english, which the source passes as the stop_words of
both vectorizers and as the language of BERTopic. -/
def englishString : String := "english"

/-- The learning method string the source passes to LDA. -/
def batchLearning : String := "batch"

/-- Keyword arguments the source hands to sklearn CountVectorizer. -/
structure CountVectorizerConfig where
  min_df : ℚ
  max_df : ℚ
  ngram_range : ℕ × ℕ
  max_features : Option ℕ
  stop_words : Option String
deriving Repr, DecidableEq

/-- Keyword arguments the source hands to sklearn
LatentDirichletAllocation. -/
structure LDAConfig where
  n_components : Int
  doc_topic_prior : Option ℚ
  topic_word_prior : Option ℚ
  learning_method : String
  learning_decay : ℚ
  learning_offset : ℚ
  max_iter : ℕ
  batch_size : ℕ
  evaluate_every : Int
  total_samples : ℚ
  perp_tol : ℚ
  mean_change_tol : ℚ
  max_doc_update_iter : ℕ
  random_state : ℕ
deriving Repr, DecidableEq

/-- Keyword arguments the source hands to UMAP. -/
structure UMAPConfig where
  n_neighbors : Int
  n_components : ℕ
  min_dist : ℚ
  metric : String
  low_memory : Bool
deriving Repr, DecidableEq

/-- Keyword arguments the source hands to the BERTopic constructor. -/
structure BERTopicConfig where
  language : String
  verbose : Bool
  top_n_words : Int
  min_topic_size : Int
  vectorizer_model : CountVectorizerConfig
  umap_model : UMAPConfig
deriving Repr, DecidableEq

/-- A document-term count matrix, the result of
CountVectorizer.fit_transform. -/
abbrev TermMatrix := List (List ℕ)

/-- Abstract behaviour of the sklearn calls made by
extract_topics_with_lda.  Each field is a pure function of the
configuration and the data reaching the call: fit_transform and
get_feature_names_out are determined by the vectorizer configuration and
the documents, and the components attribute of the fitted LDA by the LDA
configuration and the term matrix (the source fixes random_state to 0,
so the fit is deterministic). -/
structure SklearnEnv where
  fit_transform : CountVectorizerConfig → List String → TermMatrix
  get_feature_names_out : CountVectorizerConfig → List String → List String
  lda_fit_components : LDAConfig → TermMatrix → List (List ℚ)

/-- Abstract behaviour of the BERTopic call made by
extract_topics_with_bertopic: get_topics() on the model fitted with the
given configuration and documents, as the list of the values of the
returned mapping in key order — each value a list of (word, score)
pairs.  This is a per-call view: it fixes one call's outcome as a
function of configuration and documents, which suffices for the shape
and word-extraction properties of a single call.  The source seeds
neither UMAP (random_state keeps its default None) nor BERTopic, so
across calls the fit may also depend on the global NumPy RNG;
BertopicRandEnv below models that dependence explicitly. -/
structure BertopicEnv where
  get_topics : BERTopicConfig → List String → List (List (String × ℚ))

/-- The order in which argsort emits indexes: ascending weight, ties
kept in index order (a stable ascending sort). -/
abbrev argsortRel (v : List ℚ) (i j : ℕ) : Prop :=
  v.getD i 0 < v.getD j 0 ∨ (v.getD i 0 = v.getD j 0 ∧ i ≤ j)

instance argsortRelTotal (v : List ℚ) : IsTotal ℕ (argsortRel v) := by
  constructor
  intro i j
  rcases lt_trichotomy (v.getD i 0) (v.getD j 0) with h | h | h
  · exact Or.inl (Or.inl h)
  · rcases Nat.le_total i j with hij | hij
    · exact Or.inl (Or.inr ⟨h, hij⟩)
    · exact Or.inr (Or.inr ⟨h.symm, hij⟩)
  · exact Or.inr (Or.inl h)

instance argsortRelTrans (v : List ℚ) : IsTrans ℕ (argsortRel v) := by
  constructor
  intro i j k hij hjk
  rcases hij with hij | ⟨hij, hij2⟩
  · rcases hjk with hjk | ⟨hjk, _⟩
    · exact Or.inl (hij.trans hjk)
    · exact Or.inl (hjk ▸ hij)
  · rcases hjk with hjk | ⟨hjk, hjk2⟩
    · exact Or.inl (hij ▸ hjk)
    · exact Or.inr ⟨hij.trans hjk, hij2.trans hjk2⟩

/-- numpy argsort on a weight vector: the indexes that would sort the
vector in ascending order. -/
def argsort (v : List ℚ) : List ℕ :=
  (List.range v.length).insertionSort (argsortRel v)

/-- The CountVectorizer configuration built by extract_topics_with_lda
(source lines 63–69). -/
def lda_vectorizer_config (min_document_frequency : ℚ) :
    CountVectorizerConfig :=
  { min_df := min_document_frequency
    max_df := 1
    ngram_range := (1, 3)
    max_features := none
    stop_words := some englishString }

/-- The LatentDirichletAllocation configuration built by
extract_topics_with_lda (source lines 77–97; alpha and beta are None and
learning is the batch method). -/
def lda_model_config (number_of_topics : Int) : LDAConfig :=
  { n_components := number_of_topics
    doc_topic_prior := none
    topic_word_prior := none
    learning_method := batchLearning
    learning_decay := 7/10
    learning_offset := 10
    max_iter := 5000
    batch_size := 128
    evaluate_every := -1
    total_samples := 1000000
    perp_tol := 1/10
    mean_change_tol := 1/1000
    max_doc_update_iter := 100
    random_state := 0 }

/-- extract_topics_with_lda (source lines 32–117): build the vectorizer,
fit_transform the documents, read the vocabulary, fit LDA on the term
matrix, and for every row of the fitted components map the reversed
argsort of the row through the vocabulary. -/
def extract_topics_with_lda (env : SklearnEnv) (docs : List String)
    (min_document_frequency : ℚ) (number_of_topics : Int) :
    List (List String) :=
  let vectorizer := lda_vectorizer_config min_document_frequency
  let tf := env.fit_transform vectorizer docs
  let feature_names := env.get_feature_names_out vectorizer docs
  let lda := lda_model_config number_of_topics
  let components := env.lda_fit_components lda tf
  components.map fun topic =>
    ((argsort topic).reverse).map fun i => feature_names.getD i emptyString

/-- The CountVectorizer configuration built by
extract_topics_with_bertopic (source lines 148–151; only stop_words and
ngram_range are given, the rest keep the sklearn defaults min_df=1,
max_df=1.0, max_features=None, expressed here with min_df as the count
1). -/
def bertopic_vectorizer_config : CountVectorizerConfig :=
  { min_df := 1
    max_df := 1
    ngram_range := (1, 3)
    max_features := none
    stop_words := some englishString }

/-- The UMAP configuration built by extract_topics_with_bertopic (source
lines 153–159). -/
def umap_config (umap_n_neighbors : Int) : UMAPConfig :=
  { n_neighbors := umap_n_neighbors
    n_components := 5
    min_dist := 0
    metric := "cosine"
    low_memory := false }

/-- The BERTopic configuration built by extract_topics_with_bertopic
(source lines 161–168), from the vectorizer and UMAP models it is
handed. -/
def bertopic_model_config (top_n_words : Int) (min_topic_size : Int)
    (vectorizer_model : CountVectorizerConfig) (umap_model : UMAPConfig) :
    BERTopicConfig :=
  { language := englishString
    verbose := true
    top_n_words := top_n_words
    min_topic_size := min_topic_size
    vectorizer_model := vectorizer_model
    umap_model := umap_model }

/-- extract_topics_with_bertopic (source lines 120–182): build the
vectorizer, the UMAP model and the BERTopic model, fit it on the
documents (the source discards the value of fit_transform and reads
get_topics() of the fitted model, which our environment gives directly
as a function of configuration and documents), and keep for each topic
group the word of each (word, score) pair. -/
def extract_topics_with_bertopic (env : BertopicEnv) (docs : List String)
    (top_n_words : Int) (min_topic_size : Int) (umap_n_neighbors : Int) :
    List (List String) :=
  let vectorizer_model := bertopic_vectorizer_config
  let umap_model := umap_config umap_n_neighbors
  let topic_model :=
    bertopic_model_config top_n_words min_topic_size vectorizer_model
      umap_model
  let groups := env.get_topics topic_model docs
  groups.map fun topic_group => topic_group.map fun p => p.1

/-- The components of the LDA fitted inside extract_topics_with_lda, as
a function of the same inputs. -/
def lda_components (env : SklearnEnv) (docs : List String)
    (min_document_frequency : ℚ) (number_of_topics : Int) :
    List (List ℚ) :=
  env.lda_fit_components (lda_model_config number_of_topics)
    (env.fit_transform (lda_vectorizer_config min_document_frequency) docs)

/-- The vocabulary of the vectorizer fitted inside
extract_topics_with_lda, as a function of the same inputs. -/
def lda_feature_names (env : SklearnEnv) (docs : List String)
    (min_document_frequency : ℚ) : List String :=
  env.get_feature_names_out
    (lda_vectorizer_config min_document_frequency) docs

/-- The topic groups read from the BERTopic model fitted inside
extract_topics_with_bertopic, as a function of the same inputs. -/
def bertopic_groups (env : BertopicEnv) (docs : List String)
    (top_n_words : Int) (min_topic_size : Int) (umap_n_neighbors : Int) :
    List (List (String × ℚ)) :=
  env.get_topics
    (bertopic_model_config top_n_words min_topic_size
      bertopic_vectorizer_config (umap_config umap_n_neighbors))
    docs

/-- argsort returns a permutation of the index range of its input. -/
theorem argsort_perm (v : List ℚ) : (argsort v).Perm (List.range v.length) :=
  List.perm_insertionSort _ _

/-- argsort emits indexes in ascending weight order. -/
theorem argsort_pairwise (v : List ℚ) :
    List.Pairwise (argsortRel v) (argsort v) :=
  List.sorted_insertionSort _ _

/-- Reversing argsort gives the indexes in non-increasing weight
order. -/
theorem argsort_reverse_pairwise (v : List ℚ) :
    List.Pairwise (fun i j => v.getD j 0 ≤ v.getD i 0)
      ((argsort v).reverse) := by
  rw [List.pairwise_reverse]
  refine (argsort_pairwise v).imp ?_
  intro a b h
  rcases h with h | ⟨h, _⟩
  · exact le_of_lt h
  · exact le_of_eq h

/-- Reading every position of a list through getD, in index order,
recovers the list. -/
theorem range_map_getD {α : Type} (l : List α) (d : α) :
    (List.range l.length).map (fun i => l.getD i d) = l := by
  induction l with
  | nil => rfl
  | cons a l ih =>
    simp only [List.length_cons, List.range_succ_eq_map, List.map_cons,
      List.map_map, List.getD_cons_zero]
    refine congrArg (a :: ·) ?_
    calc (List.range l.length).map ((fun i => (a :: l).getD i d) ∘ Nat.succ)
        = (List.range l.length).map (fun i => l.getD i d) := by
          refine List.map_congr_left fun i _ => ?_
          simp [Function.comp, List.getD_cons_succ]
      _ = l := ih

/-- extract_topics_with_lda, written as the map it ends with. -/
theorem extract_topics_with_lda_as_map (env : SklearnEnv)
    (docs : List String) (mdf : ℚ) (nt : Int) :
    extract_topics_with_lda env docs mdf nt =
      (lda_components env docs mdf nt).map fun topic =>
        ((argsort topic).reverse).map fun i =>
          (lda_feature_names env docs mdf).getD i emptyString := rfl

/-- extract_topics_with_bertopic, written as the map it ends with. -/
theorem extract_topics_with_bertopic_as_map (env : BertopicEnv)
    (docs : List String) (tnw mts unn : Int) :
    extract_topics_with_bertopic env docs tnw mts unn =
      (bertopic_groups env docs tnw mts unn).map (List.map Prod.fst) := rfl

/-- extract_topics_with_lda threaded through an explicit store holding
the caller's docs list and an arbitrary module-state type σ.  The body
of the source function never assigns to docs and never reads or writes
module-level state — it only builds local objects and calls the
libraries — so its embedding reads the docs component of the store and
returns the store as received. -/
def extract_topics_with_lda_st (σ : Type) (env : SklearnEnv)
    (mdf : ℚ) (nt : Int) (store : List String × σ) :
    List (List String) × (List String × σ) :=
  (extract_topics_with_lda env store.1 mdf nt, store)

/-- extract_topics_with_bertopic threaded through an explicit store, on
the same grounds as extract_topics_with_lda_st. -/
def extract_topics_with_bertopic_st (σ : Type) (env : BertopicEnv)
    (tnw mts unn : Int) (store : List String × σ) :
    List (List String) × (List String × σ) :=
  (extract_topics_with_bertopic env store.1 tnw mts unn, store)

/-- The sklearn calls of extract_topics_with_lda as fallible operations:
each may raise (Except.error), as the real library calls may. -/
structure SklearnEnvE (ε : Type) where
  fit_transform : CountVectorizerConfig → List String → Except ε TermMatrix
  get_feature_names_out :
    CountVectorizerConfig → List String → Except ε (List String)
  lda_fit_components : LDAConfig → TermMatrix → Except ε (List (List ℚ))

/-- The BERTopic calls of extract_topics_with_bertopic as fallible
operations.  The value fit_transform returns is discarded by the source,
so only its success or failure is recorded. -/
structure BertopicEnvE (ε : Type) where
  fit_transform : BERTopicConfig → List String → Except ε Unit
  get_topics :
    BERTopicConfig → List String → Except ε (List (List (String × ℚ)))

/-- extract_topics_with_lda over fallible library calls.  The source
wraps none of its calls in try/except, so each call's outcome reaches
the next statement bare: the embedding is the plain bind chain of the
three calls, with no handler. -/
def extract_topics_with_lda_E {ε : Type} (env : SklearnEnvE ε)
    (docs : List String) (mdf : ℚ) (nt : Int) :
    Except ε (List (List String)) := do
  let vectorizer := lda_vectorizer_config mdf
  let tf ← env.fit_transform vectorizer docs
  let feature_names ← env.get_feature_names_out vectorizer docs
  let components ← env.lda_fit_components (lda_model_config nt) tf
  pure (components.map fun topic =>
    ((argsort topic).reverse).map fun i => feature_names.getD i emptyString)

/-- extract_topics_with_bertopic over fallible library calls: the plain
bind chain of fit_transform (value discarded, as in the source) and
get_topics, with no handler. -/
def extract_topics_with_bertopic_E {ε : Type} (env : BertopicEnvE ε)
    (docs : List String) (tnw mts unn : Int) :
    Except ε (List (List String)) := do
  let topic_model := bertopic_model_config tnw mts
    bertopic_vectorizer_config (umap_config unn)
  let _ ← env.fit_transform topic_model docs
  let groups ← env.get_topics topic_model docs
  pure (groups.map fun topic_group => topic_group.map fun p => p.1)

/-- Word-mapping step of the spec's four-step description of the LDA
strategy, stated in the spec's words: map the internal indices of the
fitted model's output to words. -/
def map_lda_indices_to_words (feature_names : List String)
    (components : List (List ℚ)) : List (List String) :=
  components.map fun topic =>
    ((argsort topic).reverse).map fun i => feature_names.getD i emptyString

/-- Word-mapping step of the spec's four-step description of the
BERTopic strategy: keep the word of each (word, score) pair. -/
def map_bertopic_pairs_to_words (groups : List (List (String × ℚ))) :
    List (List String) :=
  groups.map (List.map Prod.fst)

/-- The LDA strategy as the spec describes it, in four named steps:
build a vectorizer, construct a model with fixed or passed
hyperparameters, call fit on the input documents, and map the internal
indices of the fitted model's output to words. -/
def lda_four_step_pipeline (env : SklearnEnv) (docs : List String)
    (mdf : ℚ) (nt : Int) : List (List String) :=
  let step_build_vectorizer := lda_vectorizer_config mdf
  let step_construct_model := lda_model_config nt
  let step_fit := env.lda_fit_components step_construct_model
    (env.fit_transform step_build_vectorizer docs)
  map_lda_indices_to_words
    (env.get_feature_names_out step_build_vectorizer docs) step_fit

/-- The BERTopic strategy as the spec describes it, in four named
steps. -/
def bertopic_four_step_pipeline (env : BertopicEnv) (docs : List String)
    (tnw mts unn : Int) : List (List String) :=
  let step_build_vectorizer := bertopic_vectorizer_config
  let step_construct_model :=
    bertopic_model_config tnw mts step_build_vectorizer (umap_config unn)
  let step_fit := env.get_topics step_construct_model docs
  map_bertopic_pairs_to_words step_fit

/-- A concrete sklearn behaviour used to exercise the theorems: two
documents, the vocabulary alpha beta, and two topic weight rows. -/
def sampleSklearnEnv : SklearnEnv :=
  { fit_transform := fun _ _ => [[1, 0], [0, 1]]
    get_feature_names_out := fun _ _ => ["alpha", "beta"]
    lda_fit_components := fun _ _ => [[1, 2], [2, 1]] }

/-- A concrete BERTopic behaviour used to exercise the theorems: two
topic groups of scored words. -/
def sampleBertopicEnv : BertopicEnv :=
  { get_topics := fun _ _ =>
      [[("code", 3/2), ("smells", 1)], [("machine", 2)]] }

/-- A fallible sklearn behaviour whose first library call raises. -/
def failingSklearnEnvE : SklearnEnvE String :=
  { fit_transform := fun _ _ => Except.error "boom"
    get_feature_names_out := fun _ _ => Except.ok []
    lda_fit_components := fun _ _ => Except.ok [] }

/-- A fallible sklearn behaviour whose library calls all succeed. -/
def succeedingSklearnEnvE : SklearnEnvE String :=
  { fit_transform := fun _ _ => Except.ok [[1, 0], [0, 1]]
    get_feature_names_out := fun _ _ => Except.ok ["alpha", "beta"]
    lda_fit_components := fun _ _ => Except.ok [[1, 2]] }

/-- A fallible BERTopic behaviour whose first library call raises. -/
def failingBertopicEnvE : BertopicEnvE String :=
  { fit_transform := fun _ _ => Except.error "boom"
    get_topics := fun _ _ => Except.ok [] }

/-- A fallible BERTopic behaviour whose library calls all succeed. -/
def succeedingBertopicEnvE : BertopicEnvE String :=
  { fit_transform := fun _ _ => Except.ok ()
    get_topics := fun _ _ =>
      Except.ok [[("code", 3/2), ("smells", 1)], [("machine", 2)]] }

/-- Abstract behaviour of the BERTopic call with the RNG made explicit.
The source constructs UMAP without random_state (so it keeps its
default None and the fit draws on the global NumPy RNG) and passes no
seed to BERTopic, so the topics of the fitted model are a function of
the configuration, the documents AND the RNG state the call consumes;
the fit may also advance that state, which get_topics therefore
returns alongside the groups. -/
structure BertopicRandEnv (ρ : Type) where
  get_topics :
    BERTopicConfig → List String → ρ → List (List (String × ℚ)) × ρ

/-- extract_topics_with_bertopic threaded through a store holding the
caller's docs list, the global RNG state ρ and the remaining module
state σ.  The body assigns neither to docs nor to any module state of
its own — only the unseeded library fit touches the RNG — so the docs
and σ components come back unchanged while the RNG component is
whatever the fit left behind. -/
def extract_topics_with_bertopic_rng (ρ σ : Type)
    (env : BertopicRandEnv ρ) (tnw mts unn : Int)
    (store : List String × ρ × σ) :
    List (List String) × (List String × ρ × σ) :=
  let topic_model := bertopic_model_config tnw mts
    bertopic_vectorizer_config (umap_config unn)
  let fitted := env.get_topics topic_model store.1 store.2.1
  ((fitted.1).map fun topic_group => topic_group.map fun p => p.1,
    (store.1, fitted.2, store.2.2))

/-- A BERTopic behaviour the unseeded libraries are free to exhibit:
the discovered topic depends on the RNG state the fit consumes, and
the fit advances that state. -/
def rngSensitiveBertopicEnv : BertopicRandEnv ℕ :=
  { get_topics := fun _ _ r =>
      ([[(if r = 0 then "alpha" else "beta", 1)]], r + 1) }

/-- C1: For every library behaviour, document list and parameter values,
both extract_topics_with_lda and extract_topics_with_bertopic return a
list of topics — each topic a list of words — with one inner list per
topic discovered by the fitted model: per row of the fitted LDA
components for the LDA strategy, per entry of the fitted model's
get_topics() mapping for the BERTopic strategy. -/
theorem both_strategies_one_word_list_per_topic
    (env : SklearnEnv) (benv : BertopicEnv) (docs : List String)
    (mdf : ℚ) (nt tnw mts unn : Int) :
    (extract_topics_with_lda env docs mdf nt).length =
      (lda_components env docs mdf nt).length ∧
    (extract_topics_with_bertopic benv docs tnw mts unn).length =
      (bertopic_groups benv docs tnw mts unn).length :=
  ⟨by rw [extract_topics_with_lda_as_map]; exact List.length_map _ _,
   by rw [extract_topics_with_bertopic_as_map]; exact List.length_map _ _⟩

/-- C2: Every topic extract_topics_with_lda returns is an ordered list
of representative words: the words are the vocabulary entries read at a
permutation of the index range of the topic's weight row in the fitted
components, arranged in descending order of that weight (the ascending
argsort of the row, reversed). -/
theorem lda_topics_ordered_by_descending_weight
    (env : SklearnEnv) (docs : List String) (mdf : ℚ) (nt : Int) :
    List.Forall₂ (fun topic row => ∃ idxs : List ℕ,
        row = idxs.map (fun i =>
          (lda_feature_names env docs mdf).getD i emptyString) ∧
        idxs.Perm (List.range topic.length) ∧
        List.Pairwise (fun i j => topic.getD j 0 ≤ topic.getD i 0) idxs)
      (lda_components env docs mdf nt)
      (extract_topics_with_lda env docs mdf nt) := by
  rw [extract_topics_with_lda_as_map, List.forall₂_map_right_iff]
  refine List.forall₂_same.mpr fun topic _ => ?_
  exact ⟨(argsort topic).reverse, rfl,
    (List.reverse_perm _).trans (argsort_perm topic),
    argsort_reverse_pairwise topic⟩

/-- C4: For every library behaviour and input, each extraction function
equals the four-step pipeline the spec describes — build a vectorizer,
construct a model with fixed or passed hyperparameters, call fit on the
input documents, map the fitted model's internal indices to words — so
no other computation contributes to the return value. -/
theorem extract_functions_equal_four_step_pipelines
    (env : SklearnEnv) (benv : BertopicEnv) (docs : List String)
    (mdf : ℚ) (nt tnw mts unn : Int) :
    extract_topics_with_lda env docs mdf nt =
      lda_four_step_pipeline env docs mdf nt ∧
    extract_topics_with_bertopic benv docs tnw mts unn =
      bertopic_four_step_pipeline benv docs tnw mts unn :=
  ⟨rfl, rfl⟩

/-- C5: The caller's parameters reach the libraries unaltered —
min_document_frequency becomes the vectorizer's min_df,
number_of_topics becomes LDA's n_components, top_n_words and
min_topic_size are passed to BERTopic and umap_n_neighbors to UMAP
as-is — and every other hyperparameter of every configuration is a
fixed constant, independent of the parameters, with both
CountVectorizers configured with English stop words and ngram_range
(1, 3). -/
theorem parameters_reach_libraries_unaltered
    (mdf mdf2 : ℚ) (nt nt2 tnw tnw2 mts mts2 unn unn2 : Int) :
    (lda_vectorizer_config mdf).min_df = mdf ∧
    (lda_model_config nt).n_components = nt ∧
    (bertopic_model_config tnw mts bertopic_vectorizer_config
        (umap_config unn)).top_n_words = tnw ∧
    (bertopic_model_config tnw mts bertopic_vectorizer_config
        (umap_config unn)).min_topic_size = mts ∧
    (umap_config unn).n_neighbors = unn ∧
    (bertopic_model_config tnw mts bertopic_vectorizer_config
        (umap_config unn)).umap_model = umap_config unn ∧
    (lda_vectorizer_config mdf).stop_words = some englishString ∧
    (lda_vectorizer_config mdf).ngram_range = (1, 3) ∧
    bertopic_vectorizer_config.stop_words = some englishString ∧
    bertopic_vectorizer_config.ngram_range = (1, 3) ∧
    ({ lda_vectorizer_config mdf with min_df := 0 } :
        CountVectorizerConfig) =
      { lda_vectorizer_config mdf2 with min_df := 0 } ∧
    ({ lda_model_config nt with n_components := 0 } : LDAConfig) =
      { lda_model_config nt2 with n_components := 0 } ∧
    ({ umap_config unn with n_neighbors := 0 } : UMAPConfig) =
      { umap_config unn2 with n_neighbors := 0 } ∧
    ({ bertopic_model_config tnw mts bertopic_vectorizer_config
        (umap_config unn) with
        top_n_words := 0
        min_topic_size := 0
        umap_model := umap_config 0 } : BERTopicConfig) =
      { bertopic_model_config tnw2 mts2 bertopic_vectorizer_config
        (umap_config unn2) with
        top_n_words := 0
        min_topic_size := 0
        umap_model := umap_config 0 } :=
  ⟨rfl, rfl, rfl, rfl, rfl, rfl, rfl, rfl, rfl, rfl, rfl, rfl, rfl, rfl⟩

/-- C3 counterexample: extract_topics_with_bertopic is not
deterministic across calls.  The source seeds neither UMAP nor
BERTopic, so the fit may consume and advance the global RNG; under a
behaviour the unseeded libraries are free to exhibit, a second call
with identical arguments, made from the state the first call left
behind, returns a different topic list — state carried over from a
previous call influences the result. -/
theorem bertopic_rng_carryover_changes_result :
    (extract_topics_with_bertopic_rng ℕ Unit rngSensitiveBertopicEnv
        1 1 1 (["doc"], 0, ())).1 ≠
      (extract_topics_with_bertopic_rng ℕ Unit rngSensitiveBertopicEnv
        1 1 1
        ((extract_topics_with_bertopic_rng ℕ Unit rngSensitiveBertopicEnv
          1 1 1 (["doc"], 0, ())).2)).1 := by
  decide

/-- C3 (amended): extract_topics_with_lda is stateless and
deterministic — its result is the same from any incoming module state
and a repeated call with identical arguments, made from the store the
first call returned, yields the same topics (the source fixes LDA's
random_state to 0).  extract_topics_with_bertopic, which seeds neither
UMAP nor BERTopic, is deterministic only given the global RNG state:
with the RNG threaded explicitly, same-argument calls agree whenever
they start from the same RNG state, no store component other than the
RNG influences the result, and the call leaves the docs and every
module state other than the RNG unchanged. -/
theorem lda_stateless_bertopic_deterministic_given_rng
    (σ ρ : Type) (env : SklearnEnv) (benv : BertopicRandEnv ρ)
    (docs : List String) (mdf : ℚ) (nt tnw mts unn : Int)
    (s t : σ) (r : ρ) :
    (extract_topics_with_lda_st σ env mdf nt (docs, s)).1 =
      (extract_topics_with_lda_st σ env mdf nt (docs, t)).1 ∧
    (extract_topics_with_lda_st σ env mdf nt
        ((extract_topics_with_lda_st σ env mdf nt (docs, s)).2)).1 =
      (extract_topics_with_lda_st σ env mdf nt (docs, s)).1 ∧
    (extract_topics_with_bertopic_rng ρ σ benv tnw mts unn
        (docs, r, s)).1 =
      (extract_topics_with_bertopic_rng ρ σ benv tnw mts unn
        (docs, r, t)).1 ∧
    (extract_topics_with_bertopic_rng ρ σ benv tnw mts unn
        (docs, r, s)).2.1 = docs ∧
    (extract_topics_with_bertopic_rng ρ σ benv tnw mts unn
        (docs, r, s)).2.2.2 = s :=
  ⟨rfl, rfl, rfl, rfl, rfl⟩

/-- C7: Neither extraction function mutates the caller's docs list or
any module-level state: with the store threaded explicitly, the store a
call returns — the docs list together with the module state — is
exactly the store it received. -/
theorem extract_functions_leave_docs_and_state_unchanged
    (σ : Type) (env : SklearnEnv) (benv : BertopicEnv)
    (docs : List String) (mdf : ℚ) (nt tnw mts unn : Int) (s : σ) :
    (extract_topics_with_lda_st σ env mdf nt (docs, s)).2 = (docs, s) ∧
    (extract_topics_with_bertopic_st σ benv tnw mts unn (docs, s)).2 =
      (docs, s) :=
  ⟨rfl, rfl⟩

/-- C8: When every row of the fitted LDA components has the vocabulary's
length — the shape sklearn documents for a fitted model — every topic
extract_topics_with_lda returns is a permutation of the full vocabulary,
so all inner lists have the vocabulary's length and no truncation to a
top n of words happens. -/
theorem lda_each_topic_permutes_vocabulary
    (env : SklearnEnv) (docs : List String) (mdf : ℚ) (nt : Int)
    (hlen : ∀ topic ∈ lda_components env docs mdf nt,
      topic.length = (lda_feature_names env docs mdf).length) :
    ∀ row ∈ extract_topics_with_lda env docs mdf nt,
      row.Perm (lda_feature_names env docs mdf) ∧
      row.length = (lda_feature_names env docs mdf).length := by
  intro row hrow
  rw [extract_topics_with_lda_as_map] at hrow
  rcases List.mem_map.mp hrow with ⟨topic, htopic, rfl⟩
  have hperm :
      ((((argsort topic).reverse).map fun i =>
          (lda_feature_names env docs mdf).getD i emptyString)).Perm
        ((List.range topic.length).map fun i =>
          (lda_feature_names env docs mdf).getD i emptyString) :=
    List.Perm.map _ ((List.reverse_perm _).trans (argsort_perm topic))
  rw [hlen topic htopic, range_map_getD] at hperm
  exact ⟨hperm, hperm.length_eq⟩

/-- C8 witness: on a concrete sklearn behaviour with vocabulary
alpha beta, the first returned topic is a permutation of the
vocabulary. -/
theorem lda_each_topic_permutes_vocabulary_witness :
    List.Perm (["beta", "alpha"] : List String)
      (lda_feature_names sampleSklearnEnv ["doc one", "doc two"]
        (1/10)) ∧
    (["beta", "alpha"] : List String).length =
      (lda_feature_names sampleSklearnEnv ["doc one", "doc two"]
        (1/10)).length :=
  lda_each_topic_permutes_vocabulary sampleSklearnEnv
    ["doc one", "doc two"] (1/10) 2 (by decide) ["beta", "alpha"]
    (by decide)

/-- C9: When the fitted LDA exposes as many component rows as the
n_components it was constructed with — the contract sklearn documents —
the number of topics extract_topics_with_lda returns equals the
number_of_topics argument, and the model is indeed constructed with
n_components set to number_of_topics. -/
theorem lda_topic_count_equals_number_of_topics
    (env : SklearnEnv) (docs : List String) (mdf : ℚ) (nt : Int)
    (hfit : ((lda_components env docs mdf nt).length : Int) = nt) :
    ((extract_topics_with_lda env docs mdf nt).length : Int) = nt ∧
    (lda_model_config nt).n_components = nt := by
  refine ⟨?_, rfl⟩
  rw [extract_topics_with_lda_as_map]
  simpa using hfit

/-- C9 witness: on a concrete sklearn behaviour with two component
rows, a call asking for two topics returns two topics. -/
theorem lda_topic_count_equals_number_of_topics_witness :
    ((extract_topics_with_lda sampleSklearnEnv ["doc one", "doc two"]
        (1/10) 2).length : Int) = 2 ∧
    (lda_model_config 2).n_components = 2 :=
  lda_topic_count_equals_number_of_topics sampleSklearnEnv
    ["doc one", "doc two"] (1/10) 2 (by decide)

/-- C10: extract_topics_with_bertopic keeps only the word of each
(word, score) pair of the fitted model's get_topics() mapping — at every
topic position and word position the result holds exactly the word
component of the pair at the same position, so order is preserved and
every score discarded — and when every group holds at most top_n_words
pairs, the contract BERTopic documents, every returned topic holds at
most top_n_words words. -/
theorem bertopic_keeps_words_in_order_drops_scores
    (env : BertopicEnv) (docs : List String) (tnw mts unn : Int) :
    (extract_topics_with_bertopic env docs tnw mts unn).length =
      (bertopic_groups env docs tnw mts unn).length ∧
    (∀ k j : ℕ,
      ((extract_topics_with_bertopic env docs tnw mts unn).getD k
        [])[j]? =
        (((bertopic_groups env docs tnw mts unn).getD k [])[j]?).map
          Prod.fst) ∧
    ((∀ g ∈ bertopic_groups env docs tnw mts unn,
        (g.length : Int) ≤ tnw) →
      ∀ row ∈ extract_topics_with_bertopic env docs tnw mts unn,
        (row.length : Int) ≤ tnw) := by
  refine ⟨by simp [extract_topics_with_bertopic_as_map], ?_, ?_⟩
  · intro k j
    rw [extract_topics_with_bertopic_as_map]
    rcases h : (bertopic_groups env docs tnw mts unn)[k]? with _ | g
    · simp [List.getD_eq_getElem?_getD, List.getElem?_map, h]
    · simp [List.getD_eq_getElem?_getD, List.getElem?_map, h]
  · intro hb row hrow
    rw [extract_topics_with_bertopic_as_map] at hrow
    rcases List.mem_map.mp hrow with ⟨g, hg, rfl⟩
    simpa using hb g hg

/-- C10 witness: on a concrete BERTopic behaviour with groups
code smells and machine and top_n_words two, the result has one topic
per group, the word at position (0, 1) is the word of the pair at
(0, 1), and the first topic holds at most two words. -/
theorem bertopic_keeps_words_in_order_drops_scores_witness :
    (extract_topics_with_bertopic sampleBertopicEnv ["doc"] 2 1
        15).length =
      (bertopic_groups sampleBertopicEnv ["doc"] 2 1 15).length ∧
    ((extract_topics_with_bertopic sampleBertopicEnv ["doc"] 2 1 15).getD
        0 [])[1]? =
      (((bertopic_groups sampleBertopicEnv ["doc"] 2 1 15).getD 0
        [])[1]?).map Prod.fst ∧
    ((["code", "smells"] : List String).length : Int) ≤ 2 :=
  ⟨(bertopic_keeps_words_in_order_drops_scores sampleBertopicEnv ["doc"]
      2 1 15).1,
   (bertopic_keeps_words_in_order_drops_scores sampleBertopicEnv ["doc"]
      2 1 15).2.1 0 1,
   (bertopic_keeps_words_in_order_drops_scores sampleBertopicEnv ["doc"]
      2 1 15).2.2 (by decide) ["code", "smells"] (by decide)⟩

/-- Binding a successful Except continues with its value. -/
theorem except_ok_bind {ε α β : Type} (a : α) (f : α → Except ε β) :
    (Except.ok a : Except ε α) >>= f = f a := rfl

/-- Binding a failed Except propagates the error unchanged. -/
theorem except_error_bind {ε α β : Type} (e : ε) (f : α → Except ε β) :
    (Except.error e : Except ε α) >>= f = Except.error e := rfl

/-- pure of the Except monad is Except.ok. -/
theorem except_pure_eq_ok {ε α : Type} (a : α) :
    (pure a : Except ε α) = Except.ok a := rfl

/-- C6: Neither function contains failure handling: whichever library
call raises first — fit_transform, get_feature_names_out or the LDA fit
for the LDA strategy, fit_transform or get_topics for the BERTopic
strategy — its error is the function's outcome, unchanged; and when
every library call succeeds the function returns its shaped result,
raising no error of its own. -/
theorem library_errors_propagate_unchanged
    (ε : Type) (env : SklearnEnvE ε) (benv : BertopicEnvE ε)
    (docs : List String) (mdf : ℚ) (nt tnw mts unn : Int) (e : ε) :
    (env.fit_transform (lda_vectorizer_config mdf) docs =
        Except.error e →
      extract_topics_with_lda_E env docs mdf nt = Except.error e) ∧
    (∀ tf : TermMatrix,
      env.fit_transform (lda_vectorizer_config mdf) docs =
        Except.ok tf →
      env.get_feature_names_out (lda_vectorizer_config mdf) docs =
        Except.error e →
      extract_topics_with_lda_E env docs mdf nt = Except.error e) ∧
    (∀ (tf : TermMatrix) (fn : List String),
      env.fit_transform (lda_vectorizer_config mdf) docs =
        Except.ok tf →
      env.get_feature_names_out (lda_vectorizer_config mdf) docs =
        Except.ok fn →
      env.lda_fit_components (lda_model_config nt) tf =
        Except.error e →
      extract_topics_with_lda_E env docs mdf nt = Except.error e) ∧
    (∀ (tf : TermMatrix) (fn : List String) (comps : List (List ℚ)),
      env.fit_transform (lda_vectorizer_config mdf) docs =
        Except.ok tf →
      env.get_feature_names_out (lda_vectorizer_config mdf) docs =
        Except.ok fn →
      env.lda_fit_components (lda_model_config nt) tf =
        Except.ok comps →
      extract_topics_with_lda_E env docs mdf nt =
        Except.ok (comps.map fun topic =>
          ((argsort topic).reverse).map fun i =>
            fn.getD i emptyString)) ∧
    (benv.fit_transform (bertopic_model_config tnw mts
        bertopic_vectorizer_config (umap_config unn)) docs =
        Except.error e →
      extract_topics_with_bertopic_E benv docs tnw mts unn =
        Except.error e) ∧
    (benv.fit_transform (bertopic_model_config tnw mts
        bertopic_vectorizer_config (umap_config unn)) docs =
        Except.ok () →
      benv.get_topics (bertopic_model_config tnw mts
        bertopic_vectorizer_config (umap_config unn)) docs =
        Except.error e →
      extract_topics_with_bertopic_E benv docs tnw mts unn =
        Except.error e) ∧
    (∀ groups : List (List (String × ℚ)),
      benv.fit_transform (bertopic_model_config tnw mts
        bertopic_vectorizer_config (umap_config unn)) docs =
        Except.ok () →
      benv.get_topics (bertopic_model_config tnw mts
        bertopic_vectorizer_config (umap_config unn)) docs =
        Except.ok groups →
      extract_topics_with_bertopic_E benv docs tnw mts unn =
        Except.ok (groups.map (List.map Prod.fst))) := by
  refine ⟨?_, ?_, ?_, ?_, ?_, ?_, ?_⟩
  · intro h1
    simp only [extract_topics_with_lda_E, h1, except_error_bind]
  · intro tf h1 h2
    simp only [extract_topics_with_lda_E, h1, except_ok_bind, h2,
      except_error_bind]
  · intro tf fn h1 h2 h3
    simp only [extract_topics_with_lda_E, h1, except_ok_bind, h2, h3,
      except_error_bind]
  · intro tf fn comps h1 h2 h3
    simp only [extract_topics_with_lda_E, h1, except_ok_bind, h2, h3,
      except_pure_eq_ok]
  · intro h1
    simp only [extract_topics_with_bertopic_E, h1, except_error_bind]
  · intro h1 h2
    simp only [extract_topics_with_bertopic_E, h1, except_ok_bind, h2,
      except_error_bind]
  · intro groups h1 h2
    simp only [extract_topics_with_bertopic_E, h1, except_ok_bind, h2,
      except_pure_eq_ok]

/-- C6 witness: on a concrete fallible behaviour whose first call
raises boom each strategy returns the error boom unchanged, and on one
whose calls all succeed each strategy returns the shaped topics. -/
theorem library_errors_propagate_unchanged_witness :
    extract_topics_with_lda_E failingSklearnEnvE [] 0 1 =
      Except.error "boom" ∧
    extract_topics_with_bertopic_E failingBertopicEnvE [] 1 1 1 =
      Except.error "boom" ∧
    extract_topics_with_lda_E succeedingSklearnEnvE [] 0 1 =
      Except.ok [["beta", "alpha"]] ∧
    extract_topics_with_bertopic_E succeedingBertopicEnvE [] 2 1 1 =
      Except.ok [["code", "smells"], ["machine"]] :=
  ⟨(library_errors_propagate_unchanged String failingSklearnEnvE
      failingBertopicEnvE [] 0 1 1 1 1 "boom").1 rfl,
   (library_errors_propagate_unchanged String failingSklearnEnvE
      failingBertopicEnvE [] 0 1 1 1 1 "boom").2.2.2.2.1 rfl,
   (library_errors_propagate_unchanged String succeedingSklearnEnvE
      succeedingBertopicEnvE [] 0 1 2 1 1 "boom").2.2.2.1
      [[1, 0], [0, 1]] ["alpha", "beta"] [[1, 2]] rfl rfl rfl,
   (library_errors_propagate_unchanged String succeedingSklearnEnvE
      succeedingBertopicEnvE [] 0 1 2 1 1 "boom").2.2.2.2.2.2
      [[("code", 3/2), ("smells", 1)], [("machine", 2)]] rfl rfl⟩
